import Mathlib

/-!
Verification of the container lifecycle reconciler of `octoprint-manager`.

The embedding models:
* the persisted record store (`containers` table in SQLite) as a list of rows,
* the Docker runtime as an observed map from container name to running state,
* the external world (device-symlink resolution, success or failure of each
  Docker / filesystem call) as an explicit `World` record, and
* every operation of `utils/docker.go` and of the HTTP handlers in `main.go`
  as a pure function returning its result, the updated store, and the ordered
  list of external calls it issued.
-/

namespace OctoManager

/-- One row of the `containers` table:
`id TEXT PRIMARY KEY, device TEXT NOT NULL, port INTEGER NOT NULL, name TEXT`. -/
structure Rec where
  id : String
  device : String
  port : Int
  name : Option String
deriving Repr, DecidableEq

/-- The record store: the rows of the `containers` table, in store order. -/
abbrev Store := List Rec

/-- `getNextAvailablePort` (docker.go:91-103): runs
`SELECT MAX(port) FROM containers`; when the result is NULL (no rows) it
returns 2000, otherwise `max + 1`.  The SQL aggregate is modelled as a fold
of `max` over the rows' ports. -/
def getNextAvailablePort (s : Store) : Int :=
  match s.map Rec.port with
  | [] => 2000
  | p :: ps => ps.foldl max p + 1

/-- External calls issued by the reconciler, in order: filesystem operations,
Docker API calls, and record-store writes. -/
inductive Eff where
  | mkdirAll (path : String)
  | containerCreate (name : String) (devicePath : String) (hostPort : Int)
  | containerStart (name : String)
  | containerStop (name : String)
  | containerRemove (name : String)
  | containerRestart (name : String)
  | dbInsert (r : Rec)
  | dbDelete (id : String)
  | dbUpdateName (id : String) (name : String)
  | removeDirAll (path : String)
deriving Repr, DecidableEq

/-- Whether an external call touches the container runtime (as opposed to the
filesystem or the record store). -/
def Eff.isRuntimeOp : Eff → Bool
  | .containerCreate _ _ _ => true
  | .containerStart _ => true
  | .containerStop _ => true
  | .containerRemove _ => true
  | .containerRestart _ => true
  | _ => false

/-- The external world an operation runs against: `resolve` is
`filepath.EvalSymlinks` (`none` when the symlink is missing or unresolvable),
and each flag tells whether the corresponding Docker or filesystem call
succeeds. -/
structure World where
  resolve : String → Option String
  mkdirOk : Bool
  createOk : Bool
  startOk : Bool
  restartOk : Bool
  stopOk : Bool
  removeOk : Bool
  rmDirOk : Bool

/-- The error taxonomy of the lifecycle operations. -/
inductive Err where
  | deviceNotFound (device : String)
  | runtimeCreateFailed
  | runtimeStartFailed
  | runtimeRemoveFailed
  | storageIOError
deriving Repr, DecidableEq

/-- `createOctoPrintContainer` (docker.go:22-89): resolves the device symlink
`/dev/serial/by-id/<device>`; on success issues `ContainerCreate` for
`octoprint-<id>` (binding the resolved device path and the host port) and then
`ContainerStart`.  Returns the container name; the second component is the
ordered list of Docker calls actually issued. -/
def createOctoPrintContainer (w : World) (id device : String) (port : Int) :
    Except Err String × List Eff :=
  match w.resolve ("/dev/serial/by-id/" ++ device) with
  | none => (.error (.deviceNotFound device), [])
  | some usb =>
    let containerName := "octoprint-" ++ id
    if w.createOk then
      if w.startOk then
        (.ok containerName,
          [.containerCreate containerName usb port, .containerStart containerName])
      else
        (.error .runtimeStartFailed,
          [.containerCreate containerName usb port, .containerStart containerName])
    else
      (.error .runtimeCreateFailed, [.containerCreate containerName usb port])

instance {ε α : Type} [DecidableEq ε] [DecidableEq α] : DecidableEq (Except ε α) := fun a b =>
  match a, b with
  | .ok x, .ok y =>
      if h : x = y then .isTrue (h ▸ rfl) else .isFalse (fun hc => h (Except.ok.inj hc))
  | .error x, .error y =>
      if h : x = y then .isTrue (h ▸ rfl) else .isFalse (fun hc => h (Except.error.inj hc))
  | .ok _, .error _ => .isFalse (fun hc => Except.noConfusion hc)
  | .error _, .ok _ => .isFalse (fun hc => Except.noConfusion hc)

/-- Result of `CreateNewContainer`: the returned value, the record store after
the call, and the ordered list of external calls issued. -/
structure CreateOut where
  res : Except Err String
  store : Store
  effs : List Eff
deriving Repr, DecidableEq

/-- `CreateNewContainer` (docker.go:105-128): allocates the next port,
provisions the volume directory `/mnt/storage/octoprint/<id>` with `MkdirAll`,
creates and starts the container, and only then inserts the record
`(id, device, port)` into the store.  `id` stands for the freshly generated
UUID. -/
def CreateNewContainer (w : World) (s : Store) (id device : String) : CreateOut :=
  let port := getNextAvailablePort s
  let volumePath := "/mnt/storage/octoprint/" ++ id
  if w.mkdirOk then
    match createOctoPrintContainer w id device port with
    | (.error e, effs) => ⟨.error e, s, .mkdirAll volumePath :: effs⟩
    | (.ok containerName, effs) =>
        ⟨.ok containerName, s ++ [⟨id, device, port, none⟩],
          (.mkdirAll volumePath :: effs) ++ [.dbInsert ⟨id, device, port, none⟩]⟩
  else
    ⟨.error .storageIOError, s, []⟩

/-! ### The port allocator versus the specified `max + 1` formula -/

/-- Modelled from the spec: `next_port()` "computes `max(port) + 1` over all
current records, or a fixed baseline (2000) when the store is empty", stated
with `List.maximum`.  Used to compare the code's fold against the spec's
formula. -/
def nextPortSpec (s : Store) : Int :=
  if s = [] then 2000 else (s.map Rec.port).maximum.unbot' 0 + 1

theorem maximum_cons_eq_foldl (a : Int) (l : List Int) :
    (a :: l).maximum = ((l.foldl max a : Int) : WithBot Int) := by
  induction l generalizing a with
  | nil => simp [List.maximum_cons]
  | cons b t ih =>
      have h1 : (a :: b :: t).maximum = max (a : WithBot Int) (b :: t).maximum := by
        simp [List.maximum_cons]
      have h2 : ((max a b :: t).maximum) = ((t.foldl max (max a b) : Int) : WithBot Int) :=
        ih (max a b)
      have h3 : (max a b :: t).maximum = max ((a : WithBot Int)) (max (b : WithBot Int) t.maximum) := by
        simp [List.maximum_cons, max_assoc]
      have : (a :: b :: t).maximum = ((t.foldl max (max a b) : Int) : WithBot Int) := by
        rw [h1, ← h2, h3, List.maximum_cons]
      simpa [List.foldl] using this

theorem getNextAvailablePort_eq_spec (s : Store) :
    getNextAvailablePort s = nextPortSpec s := by
  cases s with
  | nil => rfl
  | cons r t =>
      have h : ((r :: t : Store)).map Rec.port = r.port :: t.map Rec.port := rfl
      have hm := maximum_cons_eq_foldl r.port (t.map Rec.port)
      simp [getNextAvailablePort, nextPortSpec, h, hm, WithBot.unbot'_coe]

/-! ### The observed runtime and the remaining operations -/

/-- The observed Docker state: containers by name, each either running
(`true`) or stopped (`false`); a name absent from the list does not exist. -/
abbrev Runtime := List (String × Bool)

/-- `ContainerInspect` as used by the reconciler: `some running` when a
container with that name exists, `none` when it does not (the error case of
the Docker call). -/
def inspect (rt : Runtime) (name : String) : Option Bool :=
  (rt.find? (fun p => p.1 == name)).map Prod.snd

/-- One iteration of the `RecreateAllContainers` loop (docker.go:138-167) for
record `r`: inspect `octoprint-<id>`; if it exists and is running, do nothing;
if it exists but is stopped, issue `ContainerStart` (collecting an error
string on failure); if it does not exist, run `createOctoPrintContainer` with
the record's persisted device and port (collecting an error string on
failure).  Returns the calls issued and the optional error string. -/
def recreateOne (w : World) (rt : Runtime) (r : Rec) : List Eff × Option String :=
  let containerName := "octoprint-" ++ r.id
  match inspect rt containerName with
  | some true => ([], none)
  | some false =>
      if w.startOk then ([.containerStart containerName], none)
      else ([.containerStart containerName],
        some ("failed to start existing container " ++ containerName))
  | none =>
      match createOctoPrintContainer w r.id r.device r.port with
      | (.ok _, effs) => (effs, none)
      | (.error _, effs) =>
          (effs, some ("failed to create container " ++ containerName))

/-- `RecreateAllContainers` (docker.go:130-178): iterates over every row of
`SELECT id, device, port FROM containers`, accumulating the calls issued and
the collected error strings (`var errors []string`). -/
def RecreateAllContainers (w : World) (rt : Runtime) (s : Store) :
    List Eff × List String :=
  s.foldl (fun acc r =>
    let out := recreateOne w rt r
    (acc.1 ++ out.1, acc.2 ++ out.2.toList)) ([], [])

/-- The final result of `RecreateAllContainers`: an aggregate error carrying
the collected per-record error strings when any record failed, `none`
otherwise (docker.go:173-177). -/
def recreateAllResult (w : World) (rt : Runtime) (s : Store) : Option (List String) :=
  let errs := (RecreateAllContainers w rt s).2
  if errs.isEmpty then none else some errs

/-- Result of `DeleteContainer`: returned value, store after the call, calls
issued. -/
structure DeleteOut where
  res : Except Err Unit
  store : Store
  effs : List Eff
deriving Repr, DecidableEq

/-- `DeleteContainer` (docker.go:204-246): `ContainerStop` (failure only
logged), then forced `ContainerRemove` (failure aborts the operation with the
record still in the store), then `DELETE FROM containers WHERE id = ?`, then
`RemoveAll` of the storage directory (failure reported, record already
gone). -/
def DeleteContainer (w : World) (s : Store) (id : String) : DeleteOut :=
  let containerName := "octoprint-" ++ id
  let stopEffs : List Eff := [.containerStop containerName]
  if w.removeOk then
    let s' := s.filter (fun r => r.id != id)
    let effs := stopEffs ++ [.containerRemove containerName, .dbDelete id]
    if w.rmDirOk then
      ⟨.ok (), s', effs ++ [.removeDirAll ("/mnt/storage/octoprint/" ++ id)]⟩
    else
      ⟨.error .storageIOError, s', effs⟩
  else
    ⟨.error .runtimeRemoveFailed, s, stopEffs ++ [.containerRemove containerName]⟩

/-- One row as returned by the `/api/getcontainers` handler
(`SELECT id, port, name, device FROM containers`). -/
structure ContainerInfo where
  id : String
  port : Int
  name : Option String
  device : String
deriving Repr, DecidableEq

/-- The `/api/getcontainers` handler: lists every row of the store, in store
order. -/
def listContainers (s : Store) : List ContainerInfo :=
  s.map (fun r => ⟨r.id, r.port, r.name, r.device⟩)

/-- Errors of the `/api/restartcontainer` handler.  `unknownIdentity` stands
for the handler's "Failed to get container info" response, raised when the
`SELECT device, port FROM containers WHERE id = ?` lookup finds no row. -/
inductive RestartErr where
  | restartFailed
  | unknownIdentity
  | recreateFailed
deriving Repr, DecidableEq

/-- The `/api/restartcontainer` handler (main.go variant with recreation):
inspect `octoprint-<id>`; if the container exists, issue `ContainerRestart`;
otherwise look up the record's device and port and recreate the container
via `createOctoPrintContainer`; the lookup failing (no record) is an
error with no call issued. -/
def restartContainer (w : World) (rt : Runtime) (s : Store) (id : String) :
    Except RestartErr Unit × List Eff :=
  let containerName := "octoprint-" ++ id
  match inspect rt containerName with
  | some _ =>
      if w.restartOk then (.ok (), [.containerRestart containerName])
      else (.error .restartFailed, [.containerRestart containerName])
  | none =>
      match s.find? (fun r => r.id == id) with
      | none => (.error .unknownIdentity, [])
      | some r =>
          match createOctoPrintContainer w id r.device r.port with
          | (.ok _, effs) => (.ok (), effs)
          | (.error _, effs) => (.error .recreateFailed, effs)

/-- The `/api/renamecontainer` handler:
`UPDATE containers SET name = ? WHERE id = ?` and nothing else; the only call
issued is the record-store update. -/
def renameContainer (s : Store) (id newName : String) : Store × List Eff :=
  (s.map (fun r => if r.id = id then { r with name := some newName } else r),
   [.dbUpdateName id newName])

/-! ### Supporting lemmas -/

theorem maximum_perm {l₁ l₂ : List Int} (h : l₁.Perm l₂) :
    l₁.maximum = l₂.maximum :=
  le_antisymm
    (List.maximum_le_of_forall_le (fun _ ha => List.le_maximum_of_mem' (h.mem_iff.mp ha)))
    (List.maximum_le_of_forall_le (fun _ ha => List.le_maximum_of_mem' (h.mem_iff.mpr ha)))

theorem port_lt_next (s : Store) (p : Int) (hp : p ∈ s.map Rec.port) :
    p < getNextAvailablePort s := by
  cases h : s.map Rec.port with
  | nil => rw [h] at hp; cases hp
  | cons a l =>
      rw [h] at hp
      have hle : (p : WithBot Int) ≤ ((l.foldl max a : Int) : WithBot Int) :=
        maximum_cons_eq_foldl a l ▸ List.le_maximum_of_mem' hp
      have hle2 : p ≤ l.foldl max a := WithBot.coe_le_coe.mp hle
      have hval : getNextAvailablePort s = l.foldl max a + 1 := by
        unfold getNextAvailablePort; rw [h]
      omega

theorem next_not_mem (s : Store) : getNextAvailablePort s ∉ s.map Rec.port :=
  fun hmem => absurd (port_lt_next s _ hmem) (lt_irrefl _)

theorem create_store_cases (w : World) (s : Store) (id device : String) :
    (CreateNewContainer w s id device).store = s ∨
    (CreateNewContainer w s id device).store =
      s ++ [⟨id, device, getNextAvailablePort s, none⟩] := by
  cases hmk : w.mkdirOk with
  | false => left; simp [CreateNewContainer, hmk]
  | true =>
      cases hc : createOctoPrintContainer w id device (getNextAvailablePort s) with
      | mk res effs =>
          cases res with
          | error e => left; simp [CreateNewContainer, hmk, hc]
          | ok n => right; simp [CreateNewContainer, hmk, hc]

/-- One `create` request: the world it runs against, the generated UUID, and
the requested device. -/
structure CreateReq where
  world : World
  id : String
  device : String

/-- A sequence of `CreateNewContainer` calls executed sequentially against
the record store. -/
def runCreates (s : Store) (reqs : List CreateReq) : Store :=
  reqs.foldl (fun st q => (CreateNewContainer q.world st q.id q.device).store) s

/-! ### Claim theorems -/

/-- C2: `next_port()` returns 2000 on an empty record store and
`max(port) + 1` on a non-empty one, and the result is a deterministic
function of the current record set (invariant under any reordering of the
rows). -/
theorem nextPort_baseline_max_deterministic :
    getNextAvailablePort ([] : Store) = 2000 ∧
    (∀ (s : Store) (m : Int), (s.map Rec.port).maximum = (m : WithBot Int) →
      getNextAvailablePort s = m + 1) ∧
    (∀ s₁ s₂ : Store, s₁.Perm s₂ →
      getNextAvailablePort s₁ = getNextAvailablePort s₂) := by
  refine ⟨rfl, ?_, ?_⟩
  · intro s m hm
    cases hs : s with
    | nil => rw [hs] at hm; simp [List.maximum_nil] at hm
    | cons r t =>
        rw [getNextAvailablePort_eq_spec]
        have hne : (r :: t : Store) ≠ [] := List.cons_ne_nil r t
        rw [hs] at hm
        simp only [nextPortSpec, if_neg hne, hm, WithBot.unbot'_coe]
  · intro s₁ s₂ hperm
    rw [getNextAvailablePort_eq_spec, getNextAvailablePort_eq_spec]
    have hports : (s₁.map Rec.port).Perm (s₂.map Rec.port) := hperm.map Rec.port
    have hmax := maximum_perm hports
    unfold nextPortSpec
    by_cases h₁ : s₁ = []
    · have h₂ : s₂ = [] := (h₁ ▸ hperm).symm.eq_nil
      simp [h₁, h₂]
    · have h₂ : s₂ ≠ [] := fun h₂e => h₁ (h₂e ▸ hperm).eq_nil
      rw [if_neg h₁, if_neg h₂, hmax]

/-- C2 witness: on the concrete store with ports 2000 and 2002 the allocator
returns 2003. -/
theorem nextPort_baseline_max_deterministic_witness :
    getNextAvailablePort
      [⟨"a", "usbA", 2000, none⟩, ⟨"b", "usbB", 2002, none⟩] = 2002 + 1 :=
  nextPort_baseline_max_deterministic.2.1
    [⟨"a", "usbA", 2000, none⟩, ⟨"b", "usbB", 2002, none⟩] 2002 (by decide)

theorem runCreates_nodup (reqs : List CreateReq) :
    ∀ s : Store, (s.map Rec.port).Nodup →
      ((runCreates s reqs).map Rec.port).Nodup := by
  induction reqs with
  | nil => intro s hs; exact hs
  | cons q qs ih =>
      intro s hs
      have h1 : runCreates s (q :: qs) =
          runCreates ((CreateNewContainer q.world s q.id q.device).store) qs := rfl
      rcases create_store_cases q.world s q.id q.device with h | h
      · rw [h1, h]; exact ih s hs
      · rw [h1, h]
        apply ih
        have hmap :
            ((s ++ [(⟨q.id, q.device, getNextAvailablePort s, none⟩ : Rec)]).map Rec.port)
              = s.map Rec.port ++ [getNextAvailablePort s] := by simp
        rw [hmap, List.nodup_append_comm]
        exact List.nodup_cons.mpr ⟨next_not_mem s, hs⟩

/-- C1: executing any sequence of `create` calls (distinct devices)
sequentially against a store whose ports are pairwise distinct leaves the
ports pairwise distinct, and the allocator never returns a port already
present in the store. -/
theorem create_ports_pairwise_distinct (s : Store) (reqs : List CreateReq)
    (hs : (s.map Rec.port).Nodup)
    (hdev : (reqs.map CreateReq.device).Nodup) :
    ((runCreates s reqs).map Rec.port).Nodup ∧
    ∀ t : Store, getNextAvailablePort t ∉ t.map Rec.port :=
  ⟨runCreates_nodup reqs s hs, fun t => next_not_mem t⟩

/-- A concrete resolver: `usbA` and `usbB` resolve, everything else is a
dangling symlink. -/
def resolveDemo : String → Option String := fun p =>
  if p = "/dev/serial/by-id/usbA" then some "/dev/ttyUSB0"
  else if p = "/dev/serial/by-id/usbB" then some "/dev/ttyUSB1"
  else none

/-- A world in which every external call succeeds. -/
def wAll : World :=
  ⟨resolveDemo, true, true, true, true, true, true, true⟩

/-- C1 witness: two creates from the empty store yield pairwise distinct
ports. -/
theorem create_ports_pairwise_distinct_witness :
    ((runCreates []
        [⟨wAll, "idA", "usbA"⟩, ⟨wAll, "idB", "usbB"⟩]).map Rec.port).Nodup ∧
    ∀ t : Store, getNextAvailablePort t ∉ t.map Rec.port :=
  create_ports_pairwise_distinct []
    [⟨wAll, "idA", "usbA"⟩, ⟨wAll, "idB", "usbB"⟩] (by decide) (by decide)

/-- C3: in `CreateNewContainer` the storage directory is provisioned before
the runtime create/start calls and the record is inserted only after both
succeed (the success trace is exactly mkdir, create, start, insert); when
runtime creation or start fails, no record is inserted, the store is
unchanged, and the already-provisioned directory is left in place (no
directory removal is issued). -/
theorem create_ordering_and_partial_failure
    (w : World) (s : Store) (id device usb : String)
    (hmk : w.mkdirOk = true)
    (hres : w.resolve ("/dev/serial/by-id/" ++ device) = some usb) :
    (w.createOk = true → w.startOk = true →
      CreateNewContainer w s id device =
        ⟨.ok ("octoprint-" ++ id),
         s ++ [⟨id, device, getNextAvailablePort s, none⟩],
         [.mkdirAll ("/mnt/storage/octoprint/" ++ id),
          .containerCreate ("octoprint-" ++ id) usb (getNextAvailablePort s),
          .containerStart ("octoprint-" ++ id),
          .dbInsert ⟨id, device, getNextAvailablePort s, none⟩]⟩) ∧
    (w.createOk = false ∨ w.startOk = false →
      (CreateNewContainer w s id device).store = s ∧
      (∀ r : Rec, Eff.dbInsert r ∉ (CreateNewContainer w s id device).effs) ∧
      Eff.mkdirAll ("/mnt/storage/octoprint/" ++ id)
        ∈ (CreateNewContainer w s id device).effs ∧
      (∀ p : String,
        Eff.removeDirAll p ∉ (CreateNewContainer w s id device).effs)) := by
  constructor
  · intro hc hst
    simp [CreateNewContainer, createOctoPrintContainer, hmk, hres, hc, hst]
  · intro hfail
    cases hc : w.createOk with
    | false =>
        refine ⟨?_, ?_, ?_, ?_⟩ <;>
          simp [CreateNewContainer, createOctoPrintContainer, hmk, hres, hc]
    | true =>
        have hst : w.startOk = false := by
          rcases hfail with h | h
          · rw [hc] at h; cases h
          · exact h
        refine ⟨?_, ?_, ?_, ?_⟩ <;>
          simp [CreateNewContainer, createOctoPrintContainer, hmk, hres, hc, hst]

/-- A world in which the container-start call fails and everything else
succeeds. -/
def wStartFail : World :=
  ⟨resolveDemo, true, true, false, true, true, true, true⟩

/-- C3 witness: with a failing start call, `CreateNewContainer` leaves the
store unchanged, inserts no record, and leaves the directory provisioning in
place. -/
theorem create_ordering_and_partial_failure_witness :
    (CreateNewContainer wStartFail [] "idA" "usbA").store = [] ∧
    (∀ r : Rec,
      Eff.dbInsert r ∉ (CreateNewContainer wStartFail [] "idA" "usbA").effs) ∧
    Eff.mkdirAll ("/mnt/storage/octoprint/" ++ "idA")
      ∈ (CreateNewContainer wStartFail [] "idA" "usbA").effs ∧
    (∀ p : String,
      Eff.removeDirAll p ∉ (CreateNewContainer wStartFail [] "idA" "usbA").effs) :=
  (create_ordering_and_partial_failure wStartFail [] "idA" "usbA" "/dev/ttyUSB0"
    rfl rfl).2 (Or.inr rfl)

/-- C4: the reconciliation pass performs exactly this per-record case
analysis: a running container is left untouched (no call issued); an existing
but stopped container gets exactly a `ContainerStart` (never a create); an
absent container is recreated through `createOctoPrintContainer` with the
record's persisted device and persisted port, and when the device resolves
the create call carries exactly the persisted port. -/
theorem recreate_case_analysis (w : World) (rt : Runtime) (r : Rec) :
    (inspect rt ("octoprint-" ++ r.id) = some true →
      recreateOne w rt r = ([], none)) ∧
    (inspect rt ("octoprint-" ++ r.id) = some false →
      (recreateOne w rt r).1 = [.containerStart ("octoprint-" ++ r.id)]) ∧
    (inspect rt ("octoprint-" ++ r.id) = none →
      (recreateOne w rt r).1 = (createOctoPrintContainer w r.id r.device r.port).2 ∧
      (∀ usb, w.resolve ("/dev/serial/by-id/" ++ r.device) = some usb →
        Eff.containerCreate ("octoprint-" ++ r.id) usb r.port
          ∈ (recreateOne w rt r).1)) := by
  refine ⟨?_, ?_, ?_⟩
  · intro h; simp [recreateOne, h]
  · intro h; cases hst : w.startOk <;> simp [recreateOne, h, hst]
  · intro h
    constructor
    · cases hc : createOctoPrintContainer w r.id r.device r.port with
      | mk res effs => cases res <;> simp [recreateOne, h, hc]
    · intro usb hres
      cases hcr : w.createOk <;> cases hst : w.startOk <;>
        simp [recreateOne, createOctoPrintContainer, h, hres, hcr, hst]

/-- C4 witness: on a runtime where `octoprint-idA` is running, the record for
`idA` is left untouched. -/
theorem recreate_case_analysis_witness :
    recreateOne wAll [("octoprint-idA", true)] ⟨"idA", "usbA", 2000, none⟩
      = ([], none) :=
  (recreate_case_analysis wAll [("octoprint-idA", true)]
    ⟨"idA", "usbA", 2000, none⟩).1 (by decide)

theorem recreateAll_foldl (w : World) (rt : Runtime) :
    ∀ (s : Store) (a : List Eff) (b : List String),
      s.foldl (fun acc r =>
          let out := recreateOne w rt r
          (acc.1 ++ out.1, acc.2 ++ out.2.toList)) (a, b)
        = (a ++ (s.map fun r => (recreateOne w rt r).1).flatten,
           b ++ s.filterMap fun r => (recreateOne w rt r).2) := by
  intro s
  induction s with
  | nil => intro a b; simp
  | cons r t ih =>
      intro a b
      rw [List.foldl_cons, ih]
      cases h : (recreateOne w rt r).2 <;>
        simp [h, List.filterMap_cons, List.append_assoc]

/-- C8: the reconciliation pass visits every persisted record, the outcome
for each record is a function of that record alone (a failure on one record
never changes how the others are processed), and the aggregated result is
clean exactly when no record failed, otherwise it carries the collected
per-record failures. -/
theorem recreateAll_processes_all (w : World) (rt : Runtime) (s : Store) :
    RecreateAllContainers w rt s =
      ((s.map fun r => (recreateOne w rt r).1).flatten,
       s.filterMap fun r => (recreateOne w rt r).2) ∧
    (recreateAllResult w rt s = none ↔
      ∀ r ∈ s, (recreateOne w rt r).2 = none) ∧
    (∀ e, (RecreateAllContainers w rt s).2 = e → e ≠ [] →
      recreateAllResult w rt s = some e) := by
  have hfold : RecreateAllContainers w rt s =
      ((s.map fun r => (recreateOne w rt r).1).flatten,
       s.filterMap fun r => (recreateOne w rt r).2) := by
    unfold RecreateAllContainers
    rw [recreateAll_foldl w rt s [] []]
    simp
  refine ⟨hfold, ?_, ?_⟩
  · unfold recreateAllResult
    rw [hfold]
    constructor
    · intro hnone
      by_cases he : (s.filterMap fun r => (recreateOne w rt r).2).isEmpty
      · intro r hr
        have : (s.filterMap fun r => (recreateOne w rt r).2) = [] :=
          List.isEmpty_iff.mp he
        exact List.filterMap_eq_nil_iff.mp this r hr
      · rw [if_neg he] at hnone; cases hnone
    · intro hall
      have : (s.filterMap fun r => (recreateOne w rt r).2) = [] :=
        List.filterMap_eq_nil_iff.mpr hall
      simp [this]
  · intro e he hne
    unfold recreateAllResult
    rw [he]
    have : e.isEmpty = false := by
      cases e with
      | nil => cases hne rfl
      | cons x xs => rfl
    simp [this]

/-- A world in which container creation fails and everything else succeeds. -/
def wCreateFail : World :=
  ⟨resolveDemo, true, false, true, true, true, true, true⟩

/-- C8 witness: with two absent containers and a failing create call, both
records are still processed and both failures are collected in the aggregated
result. -/
theorem recreateAll_processes_all_witness :
    RecreateAllContainers wCreateFail []
        [⟨"idA", "usbA", 2000, none⟩, ⟨"idB", "usbB", 2001, none⟩]
      = ([Eff.containerCreate "octoprint-idA" "/dev/ttyUSB0" 2000,
          Eff.containerCreate "octoprint-idB" "/dev/ttyUSB1" 2001],
         ["failed to create container octoprint-idA",
          "failed to create container octoprint-idB"]) ∧
    recreateAllResult wCreateFail []
        [⟨"idA", "usbA", 2000, none⟩, ⟨"idB", "usbB", 2001, none⟩]
      = some ["failed to create container octoprint-idA",
              "failed to create container octoprint-idB"] := by
  have h := recreateAll_processes_all wCreateFail []
    [⟨"idA", "usbA", 2000, none⟩, ⟨"idB", "usbB", 2001, none⟩]
  refine ⟨by rw [h.1]; decide, ?_⟩
  exact h.2.2 _ (by rw [h.1]; decide) (by decide)

theorem delete_store_eq (w : World) (s : Store) (id : String) :
    (DeleteContainer w s id).store =
      if w.removeOk then s.filter (fun r => r.id != id) else s := by
  cases hrm : w.removeOk <;> cases hrd : w.rmDirOk <;>
    simp [DeleteContainer, hrm, hrd]

/-- A world in which runtime removal fails and everything else succeeds. -/
def wRemoveFail : World :=
  ⟨resolveDemo, true, true, true, true, true, false, true⟩

/-- A world in which the bounded-timeout stop fails and everything else
succeeds. -/
def wStopFail : World :=
  ⟨resolveDemo, true, true, true, true, false, true, true⟩

/-- C5 counterexample: when the runtime removal fails, `DeleteContainer`
returns with the record still in the store, so `list()` still includes the
identity. -/
theorem delete_then_list_counterexample :
    (DeleteContainer wRemoveFail [⟨"a", "usbA", 2000, none⟩] "a").res
        = .error .runtimeRemoveFailed ∧
    (listContainers
        (DeleteContainer wRemoveFail [⟨"a", "usbA", 2000, none⟩] "a").store).map
      ContainerInfo.id = ["a"] := by decide

/-- C5 amended: after `DeleteContainer` returns with the runtime removal
having succeeded — in particular even when the bounded-timeout stop failed —
`list()` no longer includes the identity; when the removal itself fails the
operation aborts with the record still listed. -/
theorem delete_then_list_amended (w : World) (s : Store) (id : String)
    (hrem : w.removeOk = true) :
    ∀ info ∈ listContainers (DeleteContainer w s id).store, info.id ≠ id := by
  intro info hinfo heq
  rw [delete_store_eq, hrem] at hinfo
  simp only [if_true] at hinfo
  unfold listContainers at hinfo
  rcases List.mem_map.mp hinfo with ⟨r, hr, hconv⟩
  have hid := (List.mem_filter.mp hr).2
  have hne : r.id ≠ id := by simpa using hid
  exact hne (by rw [← heq, ← hconv])

/-- C5 witness: with a failing stop but a succeeding removal, the deleted
identity is gone from the listing. -/
theorem delete_then_list_amended_witness :
    wStopFail.removeOk = true ∧
    ∀ info ∈ listContainers
        (DeleteContainer wStopFail [⟨"a", "usbA", 2000, none⟩] "a").store,
      info.id ≠ "a" :=
  ⟨rfl, delete_then_list_amended wStopFail [⟨"a", "usbA", 2000, none⟩] "a" rfl⟩

/-- C6 counterexample: `create` on a device whose symlink does not resolve
does fail with `DeviceNotFound` and leaves the store unchanged, but it has
already provisioned the storage directory — a filesystem mutation — before
aborting, so the operation does not abort before any mutation. -/
theorem create_deviceNotFound_counterexample :
    (CreateNewContainer wAll [] "idX" "usbC").res
        = .error (.deviceNotFound "usbC") ∧
    (CreateNewContainer wAll [] "idX" "usbC").store = [] ∧
    (CreateNewContainer wAll [] "idX" "usbC").effs
        = [Eff.mkdirAll "/mnt/storage/octoprint/idX"] := by decide

/-- C6 amended: `create` on an unresolvable device fails with
`DeviceNotFound` before any record-store mutation — no row is inserted and no
port is consumed — and before any runtime call, but after the storage
directory has already been provisioned. -/
theorem create_deviceNotFound_amended (w : World) (s : Store) (id device : String)
    (hmk : w.mkdirOk = true)
    (hres : w.resolve ("/dev/serial/by-id/" ++ device) = none) :
    (CreateNewContainer w s id device).res = .error (.deviceNotFound device) ∧
    (CreateNewContainer w s id device).store = s ∧
    (∀ r : Rec, Eff.dbInsert r ∉ (CreateNewContainer w s id device).effs) ∧
    (∀ e ∈ (CreateNewContainer w s id device).effs, e.isRuntimeOp = false) ∧
    (CreateNewContainer w s id device).effs
      = [.mkdirAll ("/mnt/storage/octoprint/" ++ id)] := by
  refine ⟨?_, ?_, ?_, ?_, ?_⟩ <;>
    simp [CreateNewContainer, createOctoPrintContainer, hmk, hres, Eff.isRuntimeOp]

/-- C6 witness: the amended statement at the concrete dangling device
`usbC`. -/
theorem create_deviceNotFound_amended_witness :
    wAll.resolve ("/dev/serial/by-id/" ++ "usbC") = none ∧
    (CreateNewContainer wAll [] "idX" "usbC").store = [] :=
  ⟨by decide, (create_deviceNotFound_amended wAll [] "idX" "usbC" rfl (by decide)).2.1⟩

/-- C7 counterexample: for an identity with no persisted record but whose
derived container name does exist in the runtime, the restart handler
restarts the container — a runtime mutation — and succeeds instead of failing
with `UnknownIdentity`. -/
theorem restart_unknown_counterexample :
    restartContainer wAll [("octoprint-x", true)] [] "x"
      = (.ok (), [Eff.containerRestart "octoprint-x"]) := by decide

/-- C7 amended: for an identity with no persisted record and no runtime
container under the derived name, the restart handler fails with the
unknown-identity error and issues no runtime call at all. -/
theorem restart_unknown_amended (w : World) (rt : Runtime) (s : Store) (id : String)
    (hrt : inspect rt ("octoprint-" ++ id) = none)
    (hrec : s.find? (fun r => r.id == id) = none) :
    restartContainer w rt s id = (.error .unknownIdentity, []) := by
  simp [restartContainer, hrt, hrec]

/-- C7 witness: the amended statement on the empty runtime and empty store. -/
theorem restart_unknown_amended_witness :
    restartContainer wAll [] [] "x" = (.error .unknownIdentity, []) :=
  restart_unknown_amended wAll [] [] "x" rfl rfl

/-- C9: the rename handler changes only the `name` field of the records
matching the identity: ids, devices and ports of all rows are unchanged,
records with a different id are kept verbatim, the matching record only gets
its display name replaced, and no runtime call is issued. -/
theorem rename_frame (s : Store) (id newName : String) :
    ((renameContainer s id newName).1.map Rec.id = s.map Rec.id) ∧
    ((renameContainer s id newName).1.map Rec.device = s.map Rec.device) ∧
    ((renameContainer s id newName).1.map Rec.port = s.map Rec.port) ∧
    (∀ r ∈ s, r.id ≠ id → r ∈ (renameContainer s id newName).1) ∧
    (∀ r ∈ s, r.id = id →
      ({ r with name := some newName } : Rec) ∈ (renameContainer s id newName).1) ∧
    (∀ e ∈ (renameContainer s id newName).2, e.isRuntimeOp = false) := by
  have hmap : ∀ (α : Type) (g : Rec → α),
      (∀ r : Rec, g { r with name := some newName } = g r) →
      (renameContainer s id newName).1.map g = s.map g := by
    intro α g hg
    unfold renameContainer
    rw [List.map_map]
    apply List.map_congr_left
    intro r _
    show g (if r.id = id then { r with name := some newName } else r) = g r
    by_cases h : r.id = id
    · rw [if_pos h]; exact hg r
    · rw [if_neg h]
  refine ⟨hmap _ Rec.id (fun _ => rfl), hmap _ Rec.device (fun _ => rfl),
    hmap _ Rec.port (fun _ => rfl), ?_, ?_, ?_⟩
  · intro r hr hne
    have : (if r.id = id then ({ r with name := some newName } : Rec) else r) = r :=
      if_neg hne
    exact this ▸ List.mem_map_of_mem _ hr
  · intro r hr heq
    have : (if r.id = id then ({ r with name := some newName } : Rec) else r)
        = { r with name := some newName } := if_pos heq
    exact this ▸ List.mem_map_of_mem _ hr
  · intro e he
    have : e = Eff.dbUpdateName id newName := by
      simpa [renameContainer] using he
    rw [this]
    rfl

/-- C9 witness: renaming `a` keeps the untouched record `b` verbatim in the
store. -/
theorem rename_frame_witness :
    (⟨"b", "usbB", 2001, none⟩ : Rec) ∈
      (renameContainer [⟨"a", "usbA", 2000, none⟩, ⟨"b", "usbB", 2001, none⟩]
        "a" "Printer-1").1 :=
  (rename_frame [⟨"a", "usbA", 2000, none⟩, ⟨"b", "usbB", 2001, none⟩]
      "a" "Printer-1").2.2.2.1
    ⟨"b", "usbB", 2001, none⟩ (by decide) (by decide)

theorem maximum_ports_eq_bot_iff (s : Store) :
    (s.map Rec.port).maximum = ⊥ ↔ s = [] := by
  cases s with
  | nil => simp [List.maximum_nil]
  | cons r t =>
      constructor
      · intro h
        rw [List.map_cons, maximum_cons_eq_foldl] at h
        exact absurd h WithBot.coe_ne_bot
      · intro h; cases h

/-- C10 counterexample: in the store with ports 2000 and 2002 (reachable by
three creates and one delete), deleting the record holding the maximum port
2002 makes the next allocation return 2001, not 2002. -/
theorem reassign_max_port_counterexample :
    getNextAvailablePort [⟨"a", "usbA", 2000, none⟩, ⟨"b", "usbB", 2002, none⟩]
        = 2003 ∧
    (DeleteContainer wAll
        [⟨"a", "usbA", 2000, none⟩, ⟨"b", "usbB", 2002, none⟩] "b").store
      = [⟨"a", "usbA", 2000, none⟩] ∧
    getNextAvailablePort
        (DeleteContainer wAll
          [⟨"a", "usbA", 2000, none⟩, ⟨"b", "usbB", 2002, none⟩] "b").store
      = 2001 ∧
    (2001 : Int) ≠ 2002 := by decide

/-- C10 amended: the allocator's result depends only on the maximum port of
the store, so ports of deleted records can be reassigned; after deleting the
record with the maximum port `p`, the next allocation returns `p` again
exactly in the cases where the remaining maximum is `p - 1`, or the store
became empty and `p = 2000`. -/
theorem reassign_max_port_amended (w : World) (s : Store) (id : String) (p : Int)
    (hrem : w.removeOk = true) :
    ((DeleteContainer w s id).store = [] → p = 2000 →
      getNextAvailablePort (DeleteContainer w s id).store = p) ∧
    ((((DeleteContainer w s id).store.map Rec.port).maximum
        = ((p - 1 : Int) : WithBot Int)) →
      getNextAvailablePort (DeleteContainer w s id).store = p) ∧
    (∀ s₁ s₂ : Store, (s₁.map Rec.port).maximum = (s₂.map Rec.port).maximum →
      getNextAvailablePort s₁ = getNextAvailablePort s₂) := by
  refine ⟨?_, ?_, ?_⟩
  · intro hempty hp
    rw [hempty, hp]; rfl
  · intro hmax
    have hne : (DeleteContainer w s id).store ≠ [] := by
      intro h
      rw [(maximum_ports_eq_bot_iff _).mpr h] at hmax
      exact WithBot.coe_ne_bot hmax.symm
    rw [getNextAvailablePort_eq_spec]
    unfold nextPortSpec
    rw [if_neg hne, hmax, WithBot.unbot'_coe]
    omega
  · intro s₁ s₂ hm
    rw [getNextAvailablePort_eq_spec, getNextAvailablePort_eq_spec]
    unfold nextPortSpec
    by_cases h₁ : s₁ = []
    · have hb : (s₂.map Rec.port).maximum = ⊥ := by
        rw [← hm, (maximum_ports_eq_bot_iff _).mpr h₁]
      have h₂ : s₂ = [] := (maximum_ports_eq_bot_iff _).mp hb
      simp [h₁, h₂]
    · have h₂ : s₂ ≠ [] := by
        intro h₂e
        exact h₁ ((maximum_ports_eq_bot_iff _).mp
          (by rw [hm, (maximum_ports_eq_bot_iff _).mpr h₂e]))
      rw [if_neg h₁, if_neg h₂, hm]

/-- C10 witness: with records on ports 2000 and 2001, deleting the maximum
record (port 2001) makes the allocator return 2001 again. -/
theorem reassign_max_port_amended_witness :
    getNextAvailablePort
        (DeleteContainer wAll
          [⟨"a", "usbA", 2000, none⟩, ⟨"b", "usbB", 2001, none⟩] "b").store
      = 2001 :=
  (reassign_max_port_amended wAll
      [⟨"a", "usbA", 2000, none⟩, ⟨"b", "usbB", 2001, none⟩] "b" 2001 rfl).2.1
    (by decide)

end OctoManager
